import Mathlib

/-!
Verification of the HydrAIDE Python SDK naming module
(sdk/python/hydraidepy/src/hydraidepy/name/name.py).

The module defines a mutable three-level identifier (Sanctuary → Realm →
Swamp) with a slash-joined path, a wildcard test, an xxHash64-based island
placement with per-instance caching, and a static parser reconstructing a
Name from a path string.

Python strings are modelled as Lean String values; Python ints as Int
(the cached island number, the island-count argument) or Nat (the hash,
which is a non-negative 64-bit value); 64-bit machine arithmetic is Nat
arithmetic reduced mod 2 ^ 64.  The mutation of the Name instance is
modelled by explicit state passing: a method that mutates the instance
returns the updated Name.  The partial modulus (ZeroDivisionError when
the island count is 0) is modelled with Option.
-/

/-! ### Python str.split with a one-character separator

Mirrors the semantics of the Python expression s.split("/"): the result
always has at least one element, the empty string splits to one empty
segment, and adjacent separators produce empty segments. -/

def splitChar (sep : Char) : List Char → List (List Char)
  | [] => [[]]
  | c :: cs =>
    if c = sep then
      [] :: splitChar sep cs
    else
      match splitChar sep cs with
      | [] => [[c]]
      | s :: ss => (c :: s) :: ss

/-! ### UTF-8 encoding

The Python xxhash library hashes the UTF-8 encoding of the str argument.
Bytes are modelled as Nat values below 256. -/

def utf8EncodeChar (c : Char) : List Nat :=
  let n := c.toNat
  if n < 0x80 then
    [n]
  else if n < 0x800 then
    [0xC0 ||| (n >>> 6), 0x80 ||| (n &&& 0x3F)]
  else if n < 0x10000 then
    [0xE0 ||| (n >>> 12), 0x80 ||| ((n >>> 6) &&& 0x3F), 0x80 ||| (n &&& 0x3F)]
  else
    [0xF0 ||| (n >>> 18), 0x80 ||| ((n >>> 12) &&& 0x3F),
     0x80 ||| ((n >>> 6) &&& 0x3F), 0x80 ||| (n &&& 0x3F)]

def strBytes (s : String) : List Nat :=
  (s.data.map utf8EncodeChar).flatten

/-! ### xxHash64 (seed 0 is what xxh64_hexdigest uses)

Transcription of the XXH64 algorithm: four lane accumulators over
32-byte stripes while at least 32 bytes remain, convergence and merge
rounds, then the remaining bytes in 8-, 4- and 1-byte steps, and a final
avalanche.  All arithmetic is on Nat reduced mod 2 ^ 64.  The while
loops of the algorithm are expressed by structural recursion on the
number of iterations each loop performs (length / 32, length / 8,
length / 4 of the respective remainders). -/

def u64 (n : Nat) : Nat := n % 2 ^ 64

def prime64_1 : Nat := 11400714785074694791
def prime64_2 : Nat := 14029467366897019727
def prime64_3 : Nat := 1609587929392839161
def prime64_4 : Nat := 9650029242287828579
def prime64_5 : Nat := 2870177450012600261

def rotl64 (x r : Nat) : Nat := u64 (x <<< r) ||| (x >>> (64 - r))

def readLE : Nat → List Nat → Nat
  | 0, _ => 0
  | _ + 1, [] => 0
  | k + 1, b :: bs => b + 256 * readLE k bs

def xxh64round (acc lane : Nat) : Nat :=
  u64 (rotl64 (u64 (acc + u64 (lane * prime64_2))) 31 * prime64_1)

def xxh64merge (acc v : Nat) : Nat :=
  u64 (u64 ((acc ^^^ xxh64round 0 v) * prime64_1) + prime64_4)

def xxh64stripes : Nat → Nat → Nat → Nat → Nat → List Nat →
    Nat × Nat × Nat × Nat × List Nat
  | 0, v1, v2, v3, v4, bs => (v1, v2, v3, v4, bs)
  | k + 1, v1, v2, v3, v4, bs =>
    xxh64stripes k
      (xxh64round v1 (readLE 8 bs))
      (xxh64round v2 (readLE 8 (bs.drop 8)))
      (xxh64round v3 (readLE 8 (bs.drop 16)))
      (xxh64round v4 (readLE 8 (bs.drop 24)))
      (bs.drop 32)

def xxh64tail8 : Nat → Nat → List Nat → Nat × List Nat
  | 0, h, bs => (h, bs)
  | k + 1, h, bs =>
    xxh64tail8 k
      (u64 (u64 (rotl64 (h ^^^ xxh64round 0 (readLE 8 bs)) 27 * prime64_1) + prime64_4))
      (bs.drop 8)

def xxh64tail4 : Nat → Nat → List Nat → Nat × List Nat
  | 0, h, bs => (h, bs)
  | k + 1, h, bs =>
    xxh64tail4 k
      (u64 (u64 (rotl64 (h ^^^ u64 (readLE 4 bs * prime64_1)) 23 * prime64_2) + prime64_3))
      (bs.drop 4)

def xxh64tail1 : Nat → List Nat → Nat
  | h, [] => h
  | h, b :: bs => xxh64tail1 (u64 (rotl64 (h ^^^ u64 (b * prime64_5)) 11 * prime64_1)) bs

def xxh64avalanche (h : Nat) : Nat :=
  let h1 := u64 ((h ^^^ (h >>> 33)) * prime64_2)
  let h2 := u64 ((h1 ^^^ (h1 >>> 29)) * prime64_3)
  h2 ^^^ (h2 >>> 32)

def xxh64converge (s : Nat × Nat × Nat × Nat × List Nat) : Nat × List Nat :=
  let h0 := u64 (rotl64 s.1 1 + rotl64 s.2.1 7 + rotl64 s.2.2.1 12 + rotl64 s.2.2.2.1 18)
  (xxh64merge (xxh64merge (xxh64merge (xxh64merge h0 s.1) s.2.1) s.2.2.1) s.2.2.2.1,
   s.2.2.2.2)

def xxh64finish (h : Nat) (rest : List Nat) : Nat :=
  let p2 := xxh64tail8 (rest.length / 8) h rest
  let p3 := xxh64tail4 (p2.2.length / 4) p2.1 p2.2
  xxh64avalanche (xxh64tail1 p3.1 p3.2)

def xxh64 (seed : Nat) (input : List Nat) : Nat :=
  let len := input.length
  let start :=
    if 32 ≤ len then
      xxh64converge (xxh64stripes (len / 32)
        (u64 (seed + prime64_1 + prime64_2)) (u64 (seed + prime64_2))
        (u64 seed) (u64 (seed + (2 ^ 64 - prime64_1))) input)
    else
      (u64 (seed + prime64_5), input)
  xxh64finish (u64 (start.1 + len)) start.2

/-! ### Hex digest and parsing

xxh64_hexdigest returns the hash as 16 lowercase hex characters
(big-endian); the source then recovers the numeric value with
int(digest, 16). -/

def hexDigitChar (n : Nat) : Char :=
  if n < 10 then Char.ofNat (48 + n) else Char.ofNat (87 + n)

def natToHexAux : Nat → Nat → List Char
  | 0, _ => []
  | k + 1, n => natToHexAux k (n / 16) ++ [hexDigitChar (n % 16)]

def xxh64_hexdigest (bytes : List Nat) : String :=
  String.mk (natToHexAux 16 (xxh64 0 bytes))

def hexCharVal (c : Char) : Nat :=
  if 48 ≤ c.toNat ∧ c.toNat ≤ 57 then c.toNat - 48
  else if 97 ≤ c.toNat ∧ c.toNat ≤ 102 then c.toNat - 87
  else if 65 ≤ c.toNat ∧ c.toNat ≤ 70 then c.toNat - 55
  else 0

def intOfHex (s : String) : Nat :=
  s.data.foldl (fun acc c => acc * 16 + hexCharVal c) 0

/-! ### The Name class

Fields follow the Python attributes set in Name.__init__.  Methods that
mutate the instance return the updated Name. -/

structure Name where
  path : String
  sanctuary_id : String
  realm_name : String
  swamp_name : String
  island_number : Int
deriving DecidableEq

/-- Name.__init__: all string fields empty, island_number 0. -/
def Name.init : Name :=
  { path := "", sanctuary_id := "", realm_name := "", swamp_name := "",
    island_number := 0 }

/-- Name.sanctuary: sets sanctuary_id and replaces path with it. -/
def Name.sanctuary (n : Name) (sanctuary_id : String) : Name :=
  { n with sanctuary_id := sanctuary_id, path := sanctuary_id }

/-- Name.realm: sets realm_name and appends "/" ++ realm_name to path. -/
def Name.realm (n : Name) (realm_name : String) : Name :=
  { n with realm_name := realm_name, path := n.path ++ "/" ++ realm_name }

/-- Name.swamp: sets swamp_name and appends "/" ++ swamp_name to path. -/
def Name.swamp (n : Name) (swamp_name : String) : Name :=
  { n with swamp_name := swamp_name, path := n.path ++ "/" ++ swamp_name }

/-- Name.get: returns the accumulated path. -/
def Name.get (n : Name) : String := n.path

/-- Name.is_wildcard_pattern: any of the three non-path fields is "*". -/
def Name.is_wildcard_pattern (n : Name) : Bool :=
  n.sanctuary_id = "*" || n.realm_name = "*" || n.swamp_name = "*"

/-- Name.get_island_id: returns the cached island_number when non-zero;
otherwise hashes the separator-free concatenation of the three fields
with xxh64_hexdigest, parses the digest back to an integer, maps it into
the island range with Python % (floor modulus, Int.fmod) plus 1, caches
and returns it.  Python raises ZeroDivisionError when all_islands is 0
and no value is cached; that is the none branch. -/
def Name.get_island_id (n : Name) (all_islands : Int) : Option (Int × Name) :=
  if n.island_number ≠ 0 then
    some (n.island_number, n)
  else if all_islands = 0 then
    none
  else
    let hash := intOfHex (xxh64_hexdigest
      (strBytes (n.sanctuary_id ++ n.realm_name ++ n.swamp_name)))
    let v : Int := Int.fmod (hash : Int) all_islands + 1
    some (v, { n with island_number := v })

/-- Name.load: splits the path on "/", errors when the segment list is
empty (the documented ValueError), otherwise assigns the first segment
via sanctuary, the second (when present) via realm, and the third (when
present) via swamp; further segments are ignored. -/
def Name.load (path : String) : Except String Name :=
  let parts := (splitChar '/' path.data).map String.mk
  if parts.length < 1 then
    Except.error "Path must contain at least the sanctuary ID"
  else
    let name := Name.init.sanctuary (parts.getD 0 "")
    let name := if 1 < parts.length then name.realm (parts.getD 1 "") else name
    let name := if 2 < parts.length then name.swamp (parts.getD 2 "") else name
    Except.ok name

/-- Spec-side definition, for comparison with the code: the number of
the three component fields that equal the literal "*"; the spec sentence
under test says the wildcard test holds exactly when this count is 1. -/
def wildcardCount (n : Name) : Nat :=
  (if n.sanctuary_id = "*" then 1 else 0) +
  (if n.realm_name = "*" then 1 else 0) +
  (if n.swamp_name = "*" then 1 else 0)

/-! ### Helper lemmas -/

theorem splitChar_ne_nil (sep : Char) (l : List Char) : splitChar sep l ≠ [] := by
  induction l with
  | nil => simp [splitChar]
  | cons c cs ih =>
    simp only [splitChar]
    split
    · simp
    · split
      · simp
      · simp

theorem splitChar_of_not_mem {sep : Char} {l : List Char} (h : sep ∉ l) :
    splitChar sep l = [l] := by
  induction l with
  | nil => rfl
  | cons c cs ih =>
    rw [List.mem_cons] at h
    push_neg at h
    simp only [splitChar, if_neg (fun e : c = sep => h.1 e.symm), ih h.2]

theorem splitChar_append {sep : Char} {l1 : List Char} (h : sep ∉ l1) (l2 : List Char) :
    splitChar sep (l1 ++ sep :: l2) = l1 :: splitChar sep l2 := by
  induction l1 with
  | nil => simp [splitChar]
  | cons c cs ih =>
    rw [List.mem_cons] at h
    push_neg at h
    simp only [List.cons_append, splitChar, if_neg (fun e : c = sep => h.1 e.symm),
      List.append_eq]
    rw [ih h.2]

theorem hexCharVal_hexDigitChar : ∀ i : Fin 16, hexCharVal (hexDigitChar i.val) = i.val := by
  decide

theorem foldl_natToHexAux (k : Nat) : ∀ n acc : Nat,
    List.foldl (fun a c => a * 16 + hexCharVal c) acc (natToHexAux k n) =
      acc * 16 ^ k + n % 16 ^ k := by
  induction k with
  | zero => intro n acc; simp [natToHexAux, Nat.mod_one]
  | succ k ih =>
    intro n acc
    have hd : hexCharVal (hexDigitChar (n % 16)) = n % 16 :=
      hexCharVal_hexDigitChar ⟨n % 16, Nat.mod_lt _ (by norm_num)⟩
    simp only [natToHexAux, List.foldl_append, List.foldl_cons, List.foldl_nil, ih, hd]
    have hmod : n % 16 ^ (k + 1) = n % 16 + 16 * (n / 16 % 16 ^ k) := by
      rw [pow_succ, mul_comm (16 ^ k) 16]
      exact Nat.mod_mul
    rw [hmod]
    ring

theorem u64_lt (n : Nat) : u64 n < 2 ^ 64 := Nat.mod_lt _ (by norm_num)

theorem xxh64avalanche_lt (h : Nat) : xxh64avalanche h < 2 ^ 64 := by
  unfold xxh64avalanche
  refine Nat.xor_lt_two_pow (u64_lt _) ?_
  calc u64 ((u64 ((h ^^^ h >>> 33) * prime64_2) ^^^
        u64 ((h ^^^ h >>> 33) * prime64_2) >>> 29) * prime64_3) >>> 32
      ≤ u64 ((u64 ((h ^^^ h >>> 33) * prime64_2) ^^^
        u64 ((h ^^^ h >>> 33) * prime64_2) >>> 29) * prime64_3) := by
        rw [Nat.shiftRight_eq_div_pow]; exact Nat.div_le_self _ _
    _ < 2 ^ 64 := u64_lt _

theorem xxh64finish_lt (h : Nat) (rest : List Nat) : xxh64finish h rest < 2 ^ 64 := by
  unfold xxh64finish
  exact xxh64avalanche_lt _

theorem xxh64_lt (seed : Nat) (input : List Nat) : xxh64 seed input < 2 ^ 64 := by
  unfold xxh64
  exact xxh64finish_lt _ _

theorem intOfHex_xxh64_hexdigest (bytes : List Nat) :
    intOfHex (xxh64_hexdigest bytes) = xxh64 0 bytes := by
  unfold intOfHex xxh64_hexdigest
  show List.foldl _ 0 (natToHexAux 16 (xxh64 0 bytes)) = _
  rw [foldl_natToHexAux]
  have h16 : (16 : Nat) ^ 16 = 2 ^ 64 := by norm_num
  rw [h16, Nat.zero_mul, Nat.zero_add, Nat.mod_eq_of_lt (xxh64_lt 0 bytes)]

/-! ### Parsing lemmas for Name.load -/

theorem load_single (a : String) (ha : '/' ∉ a.data) :
    Name.load a = Except.ok (Name.init.sanctuary a) := by
  have hsplit : splitChar '/' a.data = [a.data] := splitChar_of_not_mem ha
  simp only [Name.load, hsplit, List.map]
  rfl

theorem data_append_slash (a b : String) : (a ++ "/" ++ b).data = a.data ++ '/' :: b.data := by
  show (a.data ++ '/' :: []) ++ b.data = _
  simp

theorem load_double (a b : String) (ha : '/' ∉ a.data) (hb : '/' ∉ b.data) :
    Name.load (a ++ "/" ++ b) = Except.ok ((Name.init.sanctuary a).realm b) := by
  have hsplit : splitChar '/' ((a ++ "/" ++ b).data) = [a.data, b.data] := by
    rw [data_append_slash, splitChar_append ha, splitChar_of_not_mem hb]
  simp only [Name.load, hsplit, List.map]
  rfl

theorem load_triple (a b c : String)
    (ha : '/' ∉ a.data) (hb : '/' ∉ b.data) (hc : '/' ∉ c.data) :
    Name.load (a ++ "/" ++ b ++ "/" ++ c) =
      Except.ok (((Name.init.sanctuary a).realm b).swamp c) := by
  have hdata : (a ++ "/" ++ b ++ "/" ++ c).data = a.data ++ '/' :: (b.data ++ '/' :: c.data) := by
    rw [data_append_slash (a ++ "/" ++ b) c, data_append_slash a b]
    simp
  have hsplit : splitChar '/' ((a ++ "/" ++ b ++ "/" ++ c).data) =
      [a.data, b.data, c.data] := by
    rw [hdata, splitChar_append ha, splitChar_append hb, splitChar_of_not_mem hc]
  simp only [Name.load, hsplit, List.map]
  rfl

/-! ### First placement query, characterized -/

theorem get_island_id_fresh (n : Name) (m : Nat) (h0 : n.island_number = 0) (h1 : 1 ≤ m) :
    n.get_island_id (m : Int) =
      some (((xxh64 0 (strBytes (n.sanctuary_id ++ n.realm_name ++ n.swamp_name)) % m : Nat) : Int) + 1,
        { n with island_number :=
          ((xxh64 0 (strBytes (n.sanctuary_id ++ n.realm_name ++ n.swamp_name)) % m : Nat) : Int) + 1 }) := by
  have hm : ¬((m : Int) = 0) := by
    simp only [Int.natCast_eq_zero]
    omega
  simp only [Name.get_island_id, h0, ne_eq, not_true_eq_false, if_false, if_neg hm,
    intOfHex_xxh64_hexdigest]
  rw [← Int.ofNat_fmod]

theorem get_island_id_cached_eq (n : Name) (k : Int) (h : n.island_number ≠ 0) :
    n.get_island_id k = some (n.island_number, n) := by
  simp [Name.get_island_id, h]

/-- A concrete Name with a cached placement, used to instantiate cache
theorems. -/
def cachedSample : Name :=
  { path := "a/b/c", sanctuary_id := "a", realm_name := "b", swamp_name := "c",
    island_number := 7 }

/-! ### Claim theorems -/

/-- C1: on an identifier with no cached placement, the first call to
get_island_id with an island count of at least 1 returns the xxHash64 of
the separator-free concatenation sanctuary_id ++ realm_name ++ swamp_name,
taken mod the island count, plus 1, and stores that value in
island_number. -/
theorem islandIndex_first_call (n : Name) (m : Nat) (h0 : n.island_number = 0)
    (h1 : 1 ≤ m) :
    n.get_island_id (m : Int) =
      some (((xxh64 0 (strBytes (n.sanctuary_id ++ n.realm_name ++ n.swamp_name)) % m : Nat) : Int) + 1,
        { n with island_number :=
          ((xxh64 0 (strBytes (n.sanctuary_id ++ n.realm_name ++ n.swamp_name)) % m : Nat) : Int) + 1 }) :=
  get_island_id_fresh n m h0 h1

theorem islandIndex_first_call_witness :
    Name.get_island_id
      (((Name.init.sanctuary "users").realm "profiles").swamp "alice123") 1000 =
      some (255,
        { path := "users/profiles/alice123", sanctuary_id := "users",
          realm_name := "profiles", swamp_name := "alice123", island_number := 255 }) := by
  have h := islandIndex_first_call
    (((Name.init.sanctuary "users").realm "profiles").swamp "alice123") 1000 rfl (by decide)
  exact h.trans (by decide)

/-- C2: once island_number is non-zero, get_island_id returns it for every
island-count argument, the cached value taking precedence unconditionally. -/
theorem islandIndex_cached_precedence (n : Name) (k : Int) (h : n.island_number ≠ 0) :
    n.get_island_id k = some (n.island_number, n) := by
  simp [Name.get_island_id, h]

theorem islandIndex_cached_precedence_witness :
    Name.get_island_id
      { path := "users/profiles/alice123", sanctuary_id := "users",
        realm_name := "profiles", swamp_name := "alice123", island_number := 255 } 3 =
      some (255,
        { path := "users/profiles/alice123", sanctuary_id := "users",
          realm_name := "profiles", swamp_name := "alice123", island_number := 255 }) :=
  islandIndex_cached_precedence _ 3 (by decide)

/-- C3: setting only the sanctuary yields that string as the path; adding a
realm appends a slash and the realm; adding a swamp appends a slash and the
swamp, for all strings. -/
theorem path_accumulation (a b c : String) :
    (Name.init.sanctuary a).get = a ∧
    ((Name.init.sanctuary a).realm b).get = a ++ "/" ++ b ∧
    (((Name.init.sanctuary a).realm b).swamp c).get = a ++ "/" ++ b ++ "/" ++ c :=
  ⟨rfl, rfl, rfl⟩

/-- C4: for identifiers built from one, two or three slash-free components,
loading the built path reconstructs an identifier with the same sanctuary_id,
realm_name and swamp_name fields (unset fields staying empty). -/
theorem load_path_roundtrip (a b c : String)
    (ha : '/' ∉ a.data) (hb : '/' ∉ b.data) (hc : '/' ∉ c.data) :
    (∃ m1 : Name, Name.load (Name.init.sanctuary a).get = Except.ok m1 ∧
      m1.sanctuary_id = (Name.init.sanctuary a).sanctuary_id ∧
      m1.realm_name = (Name.init.sanctuary a).realm_name ∧
      m1.swamp_name = (Name.init.sanctuary a).swamp_name) ∧
    (∃ m2 : Name, Name.load ((Name.init.sanctuary a).realm b).get = Except.ok m2 ∧
      m2.sanctuary_id = ((Name.init.sanctuary a).realm b).sanctuary_id ∧
      m2.realm_name = ((Name.init.sanctuary a).realm b).realm_name ∧
      m2.swamp_name = ((Name.init.sanctuary a).realm b).swamp_name) ∧
    (∃ m3 : Name,
      Name.load (((Name.init.sanctuary a).realm b).swamp c).get = Except.ok m3 ∧
      m3.sanctuary_id = (((Name.init.sanctuary a).realm b).swamp c).sanctuary_id ∧
      m3.realm_name = (((Name.init.sanctuary a).realm b).swamp c).realm_name ∧
      m3.swamp_name = (((Name.init.sanctuary a).realm b).swamp c).swamp_name) := by
  refine ⟨⟨_, load_single a ha, rfl, rfl, rfl⟩,
    ⟨_, load_double a b ha hb, rfl, rfl, rfl⟩,
    ⟨_, load_triple a b c ha hb hc, rfl, rfl, rfl⟩⟩

theorem load_path_roundtrip_witness :
    (∃ m1 : Name, Name.load (Name.init.sanctuary "users").get = Except.ok m1 ∧
      m1.sanctuary_id = (Name.init.sanctuary "users").sanctuary_id ∧
      m1.realm_name = (Name.init.sanctuary "users").realm_name ∧
      m1.swamp_name = (Name.init.sanctuary "users").swamp_name) ∧
    (∃ m2 : Name,
      Name.load ((Name.init.sanctuary "users").realm "profiles").get = Except.ok m2 ∧
      m2.sanctuary_id = ((Name.init.sanctuary "users").realm "profiles").sanctuary_id ∧
      m2.realm_name = ((Name.init.sanctuary "users").realm "profiles").realm_name ∧
      m2.swamp_name = ((Name.init.sanctuary "users").realm "profiles").swamp_name) ∧
    (∃ m3 : Name,
      Name.load ((((Name.init.sanctuary "users").realm "profiles").swamp "alice123")).get =
        Except.ok m3 ∧
      m3.sanctuary_id =
        ((((Name.init.sanctuary "users").realm "profiles").swamp "alice123")).sanctuary_id ∧
      m3.realm_name =
        ((((Name.init.sanctuary "users").realm "profiles").swamp "alice123")).realm_name ∧
      m3.swamp_name =
        ((((Name.init.sanctuary "users").realm "profiles").swamp "alice123")).swamp_name) :=
  load_path_roundtrip "users" "profiles" "alice123" (by decide) (by decide) (by decide)

/-- C5: for an identifier with no cached placement and any island count of
at least 1, the first call returns a value between 1 and the island count,
and calling again on the updated identifier with the same count returns the
same value and the same state. -/
theorem islandIndex_stable_and_in_range (n : Name) (m : Nat) (h0 : n.island_number = 0)
    (h1 : 1 ≤ m) :
    ∃ (v : Int) (n1 : Name),
      n.get_island_id (m : Int) = some (v, n1) ∧
      1 ≤ v ∧ v ≤ (m : Int) ∧
      n1.get_island_id (m : Int) = some (v, n1) := by
  refine ⟨_, _, get_island_id_fresh n m h0 h1, ?_, ?_, ?_⟩
  · omega
  · have hlt : xxh64 0 (strBytes (n.sanctuary_id ++ n.realm_name ++ n.swamp_name)) % m < m :=
      Nat.mod_lt _ (by omega)
    omega
  · have hne : (((xxh64 0 (strBytes (n.sanctuary_id ++ n.realm_name ++ n.swamp_name)) % m : Nat) : Int) + 1) ≠ 0 := by
      omega
    exact get_island_id_cached_eq _ _ hne

theorem islandIndex_stable_and_in_range_witness :
    ∃ (v : Int) (n1 : Name),
      Name.get_island_id
        (((Name.init.sanctuary "users").realm "profiles").swamp "alice123") 1000 =
        some (v, n1) ∧
      1 ≤ v ∧ v ≤ (1000 : Int) ∧
      n1.get_island_id 1000 = some (v, n1) :=
  islandIndex_stable_and_in_range
    (((Name.init.sanctuary "users").realm "profiles").swamp "alice123") 1000 rfl (by decide)

/-- C6: splitting the empty string yields one empty segment, so
Name.load "" succeeds with an all-empty identifier, and Name.load never
reaches its documented error branch for any input string. -/
theorem load_empty_and_total :
    splitChar '/' "".data = [[]] ∧
    Name.load "" = Except.ok
      { path := "", sanctuary_id := "", realm_name := "", swamp_name := "",
        island_number := 0 } ∧
    ∀ p : String, ∃ m : Name, Name.load p = Except.ok m := by
  refine ⟨rfl, rfl, fun p => ?_⟩
  cases h : splitChar '/' p.data with
  | nil => exact absurd h (splitChar_ne_nil '/' p.data)
  | cons s ss =>
    cases ss with
    | nil => exact ⟨_, by simp only [Name.load, h]; rfl⟩
    | cons s2 ss2 =>
      cases ss2 with
      | nil => exact ⟨_, by simp only [Name.load, h]; rfl⟩
      | cons s3 ss3 => exact ⟨_, by simp only [Name.load, h]; rfl⟩

/-- C7: on an identifier with no cached placement, get_island_id with an
island count of 0 reaches the modulus-by-zero failure instead of returning
a value. -/
theorem islandIndex_zero_mod_failure (n : Name) (h : n.island_number = 0) :
    n.get_island_id 0 = none := by
  simp [Name.get_island_id, h]

theorem islandIndex_zero_mod_failure_witness : Name.init.get_island_id 0 = none :=
  islandIndex_zero_mod_failure Name.init rfl

/-- C8 (amended): is_wildcard_pattern is true exactly when at least one of
the three component fields equals the literal asterisk (so also when two or
three of them do), and it is false when none of them does. -/
theorem wildcard_iff_count_pos (n : Name) :
    (n.is_wildcard_pattern = true ↔ 1 ≤ wildcardCount n) ∧
    (wildcardCount n = 0 → n.is_wildcard_pattern = false) := by
  by_cases h1 : n.sanctuary_id = "*" <;>
    by_cases h2 : n.realm_name = "*" <;>
      by_cases h3 : n.swamp_name = "*" <;>
        simp [Name.is_wildcard_pattern, wildcardCount, h1, h2, h3]

theorem wildcard_iff_count_pos_witness :
    wildcardCount Name.init = 0 ∧ Name.init.is_wildcard_pattern = false :=
  ⟨by decide, (wildcard_iff_count_pos Name.init).2 (by decide)⟩

/-- C8 (counterexample): an identifier whose three component fields are all
the asterisk is reported as a wildcard pattern although the number of
asterisk fields is not exactly one, refuting the claimed equivalence with
an exactly-one count. -/
theorem wildcard_exactly_one_cex :
    ¬ (((((Name.init.sanctuary "*").realm "*").swamp "*").is_wildcard_pattern = true) ↔
        wildcardCount (((Name.init.sanctuary "*").realm "*").swamp "*") = 1) := by
  decide

/-- C9: is_wildcard_pattern returns true exactly when sanctuary_id, realm_name
or swamp_name equals the literal asterisk; it reads the fields and builds no
new state. -/
theorem wildcard_iff_any_star (n : Name) :
    n.is_wildcard_pattern = true ↔
      (n.sanctuary_id = "*" ∨ n.realm_name = "*" ∨ n.swamp_name = "*") := by
  simp [Name.is_wildcard_pattern, or_assoc]

/-- C10: the three component setters leave island_number untouched, so a
cached non-zero placement survives any later mutation of the component
fields, and every later get_island_id call, with any argument, still
returns the cached value. -/
theorem setters_preserve_cache (n : Name) (x : String) (k : Int) :
    ((n.sanctuary x).island_number = n.island_number ∧
     (n.realm x).island_number = n.island_number ∧
     (n.swamp x).island_number = n.island_number) ∧
    (n.island_number ≠ 0 →
      (n.sanctuary x).get_island_id k = some (n.island_number, n.sanctuary x) ∧
      (n.realm x).get_island_id k = some (n.island_number, n.realm x) ∧
      (n.swamp x).get_island_id k = some (n.island_number, n.swamp x)) := by
  refine ⟨⟨rfl, rfl, rfl⟩, fun h => ⟨?_, ?_, ?_⟩⟩ <;>
    simp [Name.get_island_id, Name.sanctuary, Name.realm, Name.swamp, h]

theorem setters_preserve_cache_witness :
    ((cachedSample.sanctuary "z").island_number = cachedSample.island_number ∧
      (cachedSample.realm "z").island_number = cachedSample.island_number ∧
      (cachedSample.swamp "z").island_number = cachedSample.island_number) ∧
    ((cachedSample.sanctuary "z").get_island_id 3 =
        some (cachedSample.island_number, cachedSample.sanctuary "z") ∧
      (cachedSample.realm "z").get_island_id 3 =
        some (cachedSample.island_number, cachedSample.realm "z") ∧
      (cachedSample.swamp "z").get_island_id 3 =
        some (cachedSample.island_number, cachedSample.swamp "z")) := by
  have h := setters_preserve_cache cachedSample "z" 3
  exact ⟨h.1, h.2 (by decide)⟩
